import Mathlib

/-!
Verification of the Promotion & Content-Moderation workflow of the
Bhookad backend against its natural-language specification.

The definitions below are a shallow embedding of the Express route
handlers in `src/routes/vendor-promotions.js` (promotion ledger) and of
the admin review handlers (`router.patch('/:id/review')` in the vlogger
posts router and `router.patch('/posts/:id/review')` in the admin
router — the two bodies are line-for-line identical, so a single
definition models both).

Modelling conventions:
  * The Supabase persistence gateway is modelled as an in-memory list of
    rows per table; `insert` appends, `update ... eq` patches every
    matching row, and PostgREST's `.single()` is modelled by `singleRow`
    (the destructured `data` is the row when the result set has exactly
    one element and `null` otherwise; the handlers modelled here either
    ignore the accompanying `error` or turn it into an HTTP 400 reply).
  * JavaScript timestamps are modelled at calendar-day granularity by
    `CalDate`; `Date.prototype.setMonth` is embedded by `setMonthAdd`
    (see its doc comment).  Review timestamps, which no claim compares,
    are plain naturals.
  * Numbers arriving in a JSON body are modelled as `Option Rat`
    (`none` = field absent); `parseFloat` on an already-numeric value is
    the identity and IEEE-754 rounding and `NaN` are not modelled (no
    claim below depends on them).  JavaScript truthiness of the modelled
    values is `truthyStr` / `truthyNum` (absent, empty string, and the
    number 0 are falsy).
  * Fallible gateway writes are made explicit: each handler takes one
    boolean per gateway write saying whether that write fails, so that
    the partial-failure policy is provable rather than assumed.
-/

/-- A calendar date: year, month index (0-based, as in JavaScript
`Date.getMonth`), and 1-based day of month. -/
structure CalDate where
  year : Int
  month : Nat
  day : Nat
deriving Repr, DecidableEq

/-- Gregorian leap-year rule (as in ECMAScript `MakeDay`). -/
def isLeapYear (y : Int) : Bool :=
  (y % 4 == 0 && y % 100 != 0) || y % 400 == 0

/-- Number of days in a month (0-based month index). -/
def daysInMonth (y : Int) (m : Nat) : Nat :=
  if m = 1 then (if isLeapYear y then 29 else 28)
  else if m = 3 ∨ m = 5 ∨ m = 8 ∨ m = 10 then 30
  else 31

/-- ECMAScript `d.setMonth(d.getMonth() + n)` for a date whose day is a
real day-of-month (1..31 — every `Date` produced by `new Date()`
satisfies this): the month index advances by `n` with year carry, and if
the day exceeds the target month's length the date rolls over into the
following month (ECMAScript `MakeDay` day-number arithmetic; e.g.
Jan 31 + 1 month = Mar 3).  With day ≤ 31 at most one rollover can
occur, and a 31-day month never overflows, so the single conditional
below is exactly `MakeDay`'s behaviour. -/
def setMonthAdd (d : CalDate) (n : Nat) : CalDate :=
  let t := d.month + n
  let y := d.year + (t / 12 : Nat)
  let m := t % 12
  if d.day ≤ daysInMonth y m then ⟨y, m, d.day⟩
  else if m = 11 then ⟨y + 1, 0, d.day - 31⟩
  else ⟨y, m + 1, d.day - daysInMonth y m⟩

/-- Days since 1970-01-01 in the proleptic Gregorian calendar
(Hinnant's civil-from-days algorithm, the arithmetic underlying
ECMAScript time values); month is 0-based. -/
def daysFromCivil (d : CalDate) : Int :=
  let m1 : Int := (d.month : Int) + 1
  let y : Int := if m1 ≤ 2 then d.year - 1 else d.year
  let era : Int := y.fdiv 400
  let yoe : Nat := (y - era * 400).toNat
  let mp : Nat := if m1 > 2 then (m1 - 3).toNat else (m1 + 9).toNat
  let doy : Nat := (153 * mp + 2) / 5 + d.day - 1
  let doe : Nat := yoe * 365 + yoe / 4 - yoe / 100 + doy
  era * 146097 + (doe : Int) - 719468

/-- Comparison of two dates, via their civil day numbers. -/
def dateLE (a b : CalDate) : Bool :=
  decide (daysFromCivil a ≤ daysFromCivil b)

/-- JavaScript truthiness of an optional string field of a JSON body
(`undefined`, `null` and `""` are falsy). -/
def truthyStr : Option String → Bool
  | none => false
  | some s => s != ""

/-- JavaScript truthiness of an optional numeric field of a JSON body
(`undefined`, `null` and `0` are falsy; `NaN` is not modelled). -/
def truthyNum : Option Rat → Bool
  | none => false
  | some q => q != 0

/-- PostgREST `.single()`: the destructured `data` is the row when the
result set has exactly one row, and `null` otherwise. -/
def singleRow {α : Type} : List α → Option α
  | [a] => some a
  | _ => none

/-- The end-date computation of `POST /api/vendor-promotions/purchase`:
`endDate` starts as a copy of `startDate` and is advanced by
`setMonth(getMonth() + n)` in the branch selected by the duration
string; an unrecognized duration leaves the copy untouched. -/
def calcEndDate (start : CalDate) (dur : Option String) : CalDate :=
  if dur == some "1 Month" then setMonthAdd start 1
  else if dur == some "3 Months" then setMonthAdd start 3
  else if dur == some "6 Months" then setMonthAdd start 6
  else start

/-- Spec §4.1: the fixed duration table mapping the three enumerated
duration values to their number of calendar months. -/
def durationMonths (dur : Option String) : Option Nat :=
  if dur == some "1 Month" then some 1
  else if dur == some "3 Months" then some 3
  else if dur == some "6 Months" then some 6
  else none

/-- A row of the `vendor_promotions` table, with the columns written by
the purchase handler. -/
structure Promotion where
  id : Nat
  vendor_id : Nat
  package_id : Option String
  package_name : Option String
  package_price : Rat
  package_duration : Option String
  start_date : CalDate
  end_date : CalDate
  status : String
  payment_id : String
  payment_method : String
  payment_status : String
  cancelled_at : Option CalDate
  created_at : CalDate
deriving Repr, DecidableEq

/-- The vendor columns touched by the featured-state side-effect writes
of the purchase and cancel handlers. -/
structure Vendor where
  id : Nat
  is_featured : Bool
  promotion_tier : Option String
  featured_until : Option CalDate
deriving Repr, DecidableEq

/-- The persisted state seen by the promotion-ledger routes. -/
structure LedgerState where
  promos : List Promotion
  vendors : List Vendor
  nextId : Nat
deriving Repr, DecidableEq

/-- The JSON body of `POST /api/vendor-promotions/purchase`. -/
structure PurchaseBody where
  package_id : Option String
  package_name : Option String
  package_price : Option Rat
  package_duration : Option String
  payment_method : Option String
deriving Repr, DecidableEq

/-- Outcome of a promotion-ledger operation, as reported to the caller.
`invalidArgument` and `conflict` are both rendered as HTTP 400 by the
source; `gatewayError` is the 400 reply built from a Supabase error
object (including the `.single()` error on an empty update result). -/
inductive LedgerResult where
  | created (p : Promotion)
  | cancelledOk (p : Promotion)
  | invalidArgument
  | conflict
  | gatewayError
deriving Repr, DecidableEq

/-- The combined truthiness check of the purchase handler:
`if (!package_id || !package_name || !package_price || !package_duration)`. -/
def purchaseFieldsOk (b : PurchaseBody) : Bool :=
  truthyStr b.package_id && truthyStr b.package_name &&
    truthyNum b.package_price && truthyStr b.package_duration

/-- The featured-state side-effect write of the purchase handler
(`supabase.from('vendors').update({is_featured:true,...})`); when the
write fails the error is only logged and the state is unchanged. -/
def setFeatured (st : LedgerState) (vendorId : Nat) (tier : Option String)
    (untilDate : CalDate) (updateFails : Bool) : LedgerState :=
  if updateFails then st
  else { st with vendors := st.vendors.map (fun v =>
    if v.id == vendorId then
      { v with is_featured := true, promotion_tier := tier,
               featured_until := some untilDate }
    else v) }

/-- The featured-state side-effect write of the cancel handler
(`is_featured:false, promotion_tier:null, featured_until:null`). -/
def clearFeatured (st : LedgerState) (vendorId : Nat) (updateFails : Bool) :
    LedgerState :=
  if updateFails then st
  else { st with vendors := st.vendors.map (fun v =>
    if v.id == vendorId then
      { v with is_featured := false, promotion_tier := none,
               featured_until := none }
    else v) }

/-- `POST /api/vendor-promotions/purchase`.  Arguments beyond the body:
`now` is the instant read by `new Date()`, `paymentId` the synthesized
random payment reference (randomness is not modelled), `insertFails`
whether the primary ledger insert errors, `updateFails` whether the
featured-state side-effect write errors. -/
def purchase (st : LedgerState) (vendorId : Nat) (body : PurchaseBody)
    (now : CalDate) (paymentId : String) (insertFails updateFails : Bool) :
    LedgerState × LedgerResult :=
  if !purchaseFieldsOk body then (st, .invalidArgument)
  else
    match singleRow (st.promos.filter
        (fun p => p.vendor_id == vendorId && p.status == "active")) with
    | some _ => (st, .conflict)
    | none =>
      let endDate := calcEndDate now body.package_duration
      if insertFails then (st, .gatewayError)
      else
        let promo : Promotion :=
          { id := st.nextId, vendor_id := vendorId,
            package_id := body.package_id, package_name := body.package_name,
            package_price := body.package_price.getD 0,
            package_duration := body.package_duration,
            start_date := now, end_date := endDate, status := "active",
            payment_id := paymentId,
            payment_method := body.payment_method.getD "test",
            payment_status := "completed",
            cancelled_at := none, created_at := now }
        let st1 : LedgerState :=
          { st with promos := st.promos ++ [promo], nextId := st.nextId + 1 }
        (setFeatured st1 vendorId body.package_id endDate updateFails,
         .created promo)

/-- The row patch applied by `PATCH /api/vendor-promotions/:id/cancel`. -/
def cancelRow (now : CalDate) (p : Promotion) : Promotion :=
  { p with status := "cancelled", cancelled_at := some now }

/-- `PATCH /api/vendor-promotions/:id/cancel`.  The update patches every
row matching both `id` and `vendor_id` (there is no check of the current
status); `.single()` on the updated rows yields the 400 error reply when
no row (or more than one row) matched.  `primaryFails` models the
update statement itself erroring, `updateFails` the featured-state
side-effect write erroring (only logged). -/
def cancel (st : LedgerState) (promoId vendorId : Nat) (now : CalDate)
    (primaryFails updateFails : Bool) : LedgerState × LedgerResult :=
  if primaryFails then (st, .gatewayError)
  else
    let touched := st.promos.filter
      (fun p => p.id == promoId && p.vendor_id == vendorId)
    let st1 : LedgerState :=
      { st with promos := st.promos.map (fun p =>
          if p.id == promoId && p.vendor_id == vendorId then cancelRow now p
          else p) }
    match singleRow (touched.map (cancelRow now)) with
    | none => (st1, .gatewayError)
    | some p => (clearFeatured st1 vendorId updateFails, .cancelledOk p)

/-- `GET /api/vendor-promotions`: the vendor's promotion rows, ordered
by `created_at` descending, returned verbatim (no status correction of
any kind is applied). -/
def getPromotions (st : LedgerState) (vendorId : Nat) : List Promotion :=
  (st.promos.filter (fun p => p.vendor_id == vendorId)).mergeSort
    (fun a b => dateLE b.created_at a.created_at)

/-- One serialized promotion-ledger operation (spec §5: sequential
operation order). -/
inductive LedgerOp where
  | purchaseOp (vendorId : Nat) (body : PurchaseBody) (now : CalDate)
      (paymentId : String) (insertFails updateFails : Bool)
  | cancelOp (promoId vendorId : Nat) (now : CalDate)
      (primaryFails updateFails : Bool)

/-- Apply one ledger operation to the persisted state. -/
def stepLedger (st : LedgerState) : LedgerOp → LedgerState × LedgerResult
  | .purchaseOp v b now pid f1 f2 => purchase st v b now pid f1 f2
  | .cancelOp pid v now f1 f2 => cancel st pid v now f1 f2

/-- Run a serialized sequence of ledger operations. -/
def runLedger (st : LedgerState) (ops : List LedgerOp) : LedgerState :=
  ops.foldl (fun s op => (stepLedger s op).1) st

/-- The rows a status-filtered gateway query returns for a vendor:
promotions with `vendor_id = v` and persisted `status = "active"`. -/
def activePromos (st : LedgerState) (v : Nat) : List Promotion :=
  st.promos.filter (fun p => p.vendor_id == v && p.status == "active")

/-- Spec §3 invariant: for a given vendor at most one promotion row has
persisted status `active`. -/
def OneActiveInv (st : LedgerState) : Prop :=
  ∀ v, (activePromos st v).length ≤ 1

/-- A row of the `vlogger_posts` table, with the columns written by the
submission and review handlers. -/
structure VloggerPost where
  id : Nat
  vlogger_id : Nat
  vendor_id : Nat
  post_title : String
  post_description : Option String
  post_url : String
  screenshot_url : Option String
  platform : String
  status : String
  admin_notes : Option String
  payout_amount : Option Rat
  submitted_at : Nat
  reviewed_at : Option Nat
  reviewed_by : Option Nat
deriving Repr, DecidableEq

/-- The persisted state seen by the moderation routes. -/
structure ModState where
  posts : List VloggerPost
deriving Repr, DecidableEq

/-- Outcome of a review operation, as reported to the caller.
`invalidArgument` is the 400 "Status must be approved or rejected"
reply, `forbidden` the 403 admin-role reply, `gatewayError` the 400
reply built from a Supabase error object. -/
inductive ReviewResult where
  | ok (p : VloggerPost)
  | invalidArgument
  | forbidden
  | gatewayError
deriving Repr, DecidableEq

/-- The `updateData` object built by the review handlers.  The source
calls the decision field `status`; `payout_amount` is present in the
patch only when the decision is `approved` AND the supplied payout is
truthy (`if (status === 'approved' && payout_amount)`). -/
structure ReviewUpdate where
  status : String
  admin_notes : Option String
  reviewed_at : Nat
  reviewed_by : Nat
  payout_amount : Option Rat
deriving Repr, DecidableEq

/-- Build the review handlers' `updateData` patch. -/
def mkUpdateData (decision : String) (notes : Option String)
    (payout : Option Rat) (now adminId : Nat) : ReviewUpdate :=
  { status := decision,
    admin_notes := if truthyStr notes then notes else none,
    reviewed_at := now,
    reviewed_by := adminId,
    payout_amount :=
      if decision == "approved" && truthyNum payout then payout else none }

/-- SQL `UPDATE ... SET` of the columns present in `updateData`: a
column absent from the patch (here only `payout_amount` can be absent)
keeps its stored value. -/
def applyPatch (p : VloggerPost) (u : ReviewUpdate) : VloggerPost :=
  { p with
    status := u.status,
    admin_notes := u.admin_notes,
    reviewed_at := some u.reviewed_at,
    reviewed_by := some u.reviewed_by,
    payout_amount :=
      match u.payout_amount with
      | some q => some q
      | none => p.payout_amount }

/-- The admin review handler (`PATCH /api/vlogger-posts/:id/review` and
the line-for-line identical `PATCH /api/admin/posts/:id/review`).
`role` is `req.user?.role`, `decision` the body field the source calls
`status`, `now` the `new Date()` instant of `reviewed_at`, and
`updateFails` whether the gateway update statement errors (nothing
applied, error returned).  The update patches every row whose `id`
matches — with no check whatsoever of the row's current status — and
`.single()` turns an empty result set into a 400 error reply. -/
def review (st : ModState) (role : String) (adminId postId : Nat)
    (decision : String) (notes : Option String) (payout : Option Rat)
    (now : Nat) (updateFails : Bool) : ModState × ReviewResult :=
  if role != "admin" then (st, .forbidden)
  else if !(decision == "approved" || decision == "rejected") then
    (st, .invalidArgument)
  else
    let patch := mkUpdateData decision notes payout now adminId
    if updateFails then (st, .gatewayError)
    else
      let newPosts := st.posts.map (fun p =>
        if p.id == postId then applyPatch p patch else p)
      match singleRow ((st.posts.filter (fun p => p.id == postId)).map
          (fun p => applyPatch p patch)) with
      | none => ({ posts := newPosts }, .gatewayError)
      | some p => ({ posts := newPosts }, .ok p)

/-! ## Helper lemmas (shared) -/

/-- Neither featured-state write touches the promotions table. -/
theorem setFeatured_promos (st : LedgerState) (vendorId : Nat)
    (tier : Option String) (untilDate : CalDate) (b : Bool) :
    (setFeatured st vendorId tier untilDate b).promos = st.promos := by
  cases b <;> rfl

/-- Neither featured-state write touches the promotions table. -/
theorem clearFeatured_promos (st : LedgerState) (vendorId : Nat) (b : Bool) :
    (clearFeatured st vendorId b).promos = st.promos := by
  cases b <;> rfl

/-- `.single()` yields a row exactly on a one-element result set. -/
theorem singleRow_eq_none_of_ne_one {α : Type} (l : List α)
    (h : l.length ≠ 1) : singleRow l = none := by
  match l with
  | [] => rfl
  | [a] => simp at h
  | a :: b :: t => rfl

/-- A one-element result set passes `.single()`. -/
theorem singleRow_of_length_one {α : Type} (l : List α)
    (h : l.length = 1) : ∃ a, l = [a] ∧ singleRow l = some a := by
  match l with
  | [a] => exact ⟨a, rfl, rfl⟩

/-- A state with at most one promotion row satisfies the invariant. -/
theorem OneActiveInv_of_short (st : LedgerState)
    (h : st.promos.length ≤ 1) : OneActiveInv st :=
  fun _ => le_trans (List.length_filter_le _ _) h

/-! ## C3: purchase end time is start time plus 1/3/6 calendar months -/

/-- C3: for every successful purchase the end date is the start date
advanced by exactly 1, 3 or 6 calendar months according to the duration
argument "1 Month" / "3 Months" / "6 Months" (ECMAScript `setMonth`
calendar arithmetic, day-of-month preserved with rollover on overflow) —
not a fixed number of days, as witnessed by a 31-day January step and a
28-day February step on concrete dates. -/
theorem purchase_end_is_calendar_months :
    (∀ (start : CalDate) (dur : Option String) (n : Nat),
        durationMonths dur = some n →
        calcEndDate start dur = setMonthAdd start n) ∧
    daysFromCivil (setMonthAdd ⟨2023, 0, 15⟩ 1) -
      daysFromCivil ⟨2023, 0, 15⟩ = 31 ∧
    daysFromCivil (setMonthAdd ⟨2023, 1, 15⟩ 1) -
      daysFromCivil ⟨2023, 1, 15⟩ = 28 := by
  refine ⟨?_, by decide, by decide⟩
  intro start dur n h
  by_cases h1 : dur = some "1 Month"
  · simp [durationMonths, h1] at h
    simp [calcEndDate, h1, ← h]
  · by_cases h3 : dur = some "3 Months"
    · simp [durationMonths, h1, h3] at h
      simp [calcEndDate, h1, h3, ← h]
    · by_cases h6 : dur = some "6 Months"
      · simp [durationMonths, h1, h3, h6] at h
        simp [calcEndDate, h1, h3, h6, ← h]
      · simp [durationMonths, h1, h3, h6] at h

/-- Witness for C3 at a concrete duration and start date. -/
theorem purchase_end_is_calendar_months_witness :
    durationMonths (some "3 Months") = some 3 ∧
    calcEndDate ⟨2024, 10, 30⟩ (some "3 Months") =
      setMonthAdd ⟨2024, 10, 30⟩ 3 :=
  ⟨by decide, purchase_end_is_calendar_months.1 _ _ _ (by decide)⟩

/-! ## C5: review with a decision outside {approved, rejected} -/

/-- C5: a review whose decision (the body field the source calls
`status`) is neither exactly "approved" nor exactly "rejected" fails
with the InvalidArgument reply (HTTP 400, "Status must be approved or
rejected") and the store is completely unchanged — the check runs before
any gateway write, so the targeted post keeps its stored status and no
reviewed_at/reviewed_by/payout fields are written. -/
theorem review_invalid_decision (st : ModState) (adminId postId : Nat)
    (decision : String) (notes : Option String) (payout : Option Rat)
    (now : Nat) (uf : Bool)
    (h1 : decision ≠ "approved") (h2 : decision ≠ "rejected") :
    review st "admin" adminId postId decision notes payout now uf =
      (st, .invalidArgument) := by
  simp [review, h1, h2]

/-- Witness for C5 at the concrete decision value "maybe". -/
theorem review_invalid_decision_witness :
    review ⟨[]⟩ "admin" 1 1 "maybe" none none 5 false =
      (⟨[]⟩, .invalidArgument) :=
  review_invalid_decision _ _ _ _ _ _ _ _ (by decide) (by decide)

/-! ## C9: rejected reviews and payout_amount -/

/-- An already-approved post carrying a payout, as produced by an
earlier approval review (the review handler allows re-reviewing, so this
state is reachable). -/
def c9Post : VloggerPost :=
  { id := 1, vlogger_id := 4, vendor_id := 2, post_title := "X",
    post_description := none, post_url := "http://x", screenshot_url := none,
    platform := "YouTube", status := "approved", admin_notes := none,
    payout_amount := some 500, submitted_at := 1, reviewed_at := some 10,
    reviewed_by := some 9 }

/-- C9 counterexample: the claim says the updated record of a rejected
review never contains a payout_amount.  But the rejected review's patch
simply omits the payout column, so a payout stored by an earlier
approval survives: re-reviewing `c9Post` (approved, payout 500) as
rejected — even with payout 999 supplied — succeeds and leaves
`payout_amount = 500` in the updated record. -/
theorem rejected_review_record_keeps_prior_payout :
    (review ⟨[c9Post]⟩ "admin" 9 1 "rejected" none (some 999) 20 false).2 =
      .ok (applyPatch c9Post (mkUpdateData "rejected" none (some 999) 20 9)) ∧
    (applyPatch c9Post
        (mkUpdateData "rejected" none (some 999) 20 9)).status = "rejected" ∧
    (applyPatch c9Post
        (mkUpdateData "rejected" none (some 999) 20 9)).payout_amount =
      some 500 := by
  exact ⟨rfl, rfl, rfl⟩

/-- C9 amended: a rejected review never *writes* payout_amount — the
patch contains no payout column even when one is supplied, so the
supplied value is ignored and the stored payout_amount of the updated
post is left exactly as it was (in particular a post with no prior
payout still has none). -/
theorem rejected_review_writes_no_payout (notes : Option String)
    (payout : Option Rat) (now adminId : Nat) :
    (mkUpdateData "rejected" notes payout now adminId).payout_amount =
      none ∧
    ∀ p : VloggerPost,
      (applyPatch p
        (mkUpdateData "rejected" notes payout now adminId)).payout_amount =
        p.payout_amount :=
  ⟨rfl, fun _ => rfl⟩

/-! ## C10: approved review with absent/zero payout -/

/-- A pending post awaiting review, with no payout stored. -/
def c10Post : VloggerPost :=
  { id := 1, vlogger_id := 4, vendor_id := 2, post_title := "Y",
    post_description := none, post_url := "http://y", screenshot_url := none,
    platform := "Instagram", status := "pending", admin_notes := none,
    payout_amount := none, submitted_at := 1, reviewed_at := none,
    reviewed_by := none }

/-- C10: an approved review whose supplied payout_amount is absent or
falsy (a payout of 0 is falsy, hence treated the same as no payout)
still succeeds, and the update it writes contains no payout_amount
column — so a post with no stored payout ends with payout stored as
absent; the case is not an InvalidArgument. -/
theorem approved_review_falsy_payout (st : ModState) (adminId postId : Nat)
    (notes : Option String) (payout : Option Rat) (now : Nat)
    (post : VloggerPost)
    (hfalsy : truthyNum payout = false)
    (hpost : st.posts.filter (fun p => p.id == postId) = [post]) :
    (mkUpdateData "approved" notes payout now adminId).payout_amount =
      none ∧
    review st "admin" adminId postId "approved" notes payout now false =
      ({ posts := st.posts.map (fun p =>
          if p.id == postId then
            applyPatch p (mkUpdateData "approved" notes payout now adminId)
          else p) },
       .ok (applyPatch post
         (mkUpdateData "approved" notes payout now adminId))) ∧
    (post.payout_amount = none →
      (applyPatch post
        (mkUpdateData "approved" notes payout now adminId)).payout_amount =
        none) := by
  have hpatch :
      (mkUpdateData "approved" notes payout now adminId).payout_amount =
        none := by
    simp [mkUpdateData, hfalsy]
  refine ⟨hpatch, ?_, ?_⟩
  · simp [review, hpost, singleRow]
  · intro h0
    simp [applyPatch, hpatch, h0]

/-- Witness for C10: approving `c10Post` with a supplied payout of 0. -/
theorem approved_review_falsy_payout_witness :
    (mkUpdateData "approved" (some "ok") (some 0) 7 3).payout_amount =
      none ∧
    review ⟨[c10Post]⟩ "admin" 3 1 "approved" (some "ok") (some 0) 7 false =
      ({ posts := [c10Post].map (fun p =>
          if p.id == 1 then
            applyPatch p (mkUpdateData "approved" (some "ok") (some 0) 7 3)
          else p) },
       .ok (applyPatch c10Post
         (mkUpdateData "approved" (some "ok") (some 0) 7 3))) ∧
    (c10Post.payout_amount = none →
      (applyPatch c10Post
        (mkUpdateData "approved" (some "ok") (some 0) 7 3)).payout_amount =
        none) :=
  approved_review_falsy_payout ⟨[c10Post]⟩ 3 1 (some "ok") (some 0) 7
    c10Post (by decide) (by decide)

/-! ## C7: re-review of a post in a terminal state -/

/-- An already-approved post (terminal state per the spec). -/
def c7Post : VloggerPost :=
  { id := 1, vlogger_id := 4, vendor_id := 2, post_title := "Z",
    post_description := none, post_url := "http://z", screenshot_url := none,
    platform := "YouTube", status := "approved", admin_notes := some "fine",
    payout_amount := some 500, submitted_at := 1, reviewed_at := some 10,
    reviewed_by := some 9 }

/-- C7 counterexample: the claim says a review of a post already in a
terminal state fails with Conflict and leaves the stored fields
unchanged.  The handler never reads the post's current status: reviewing
the already-approved `c7Post` as rejected succeeds (HTTP 200) and
overwrites status, admin_notes, reviewed_at and reviewed_by. -/
theorem re_review_of_terminal_post_succeeds :
    (review ⟨[c7Post]⟩ "admin" 2 1 "rejected" (some "second look") none 20
        false).2 =
      .ok (applyPatch c7Post
        (mkUpdateData "rejected" (some "second look") none 20 2)) ∧
    c7Post.status = "approved" ∧
    (applyPatch c7Post
        (mkUpdateData "rejected" (some "second look") none 20 2)).status =
      "rejected" ∧
    (applyPatch c7Post
        (mkUpdateData "rejected" (some "second look") none 20 2)).reviewed_by =
      some 2 := by
  exact ⟨rfl, rfl, rfl, rfl⟩

/-- C7 amended: the review handler applies the pending-to-decision patch
to whatever post matches the id, with no check of its current status: a
second review of an approved or rejected post succeeds exactly like a
first review of a pending one, overwriting status, admin_notes,
reviewed_at, reviewed_by (and payout_amount when approving with a truthy
payout); no Conflict is ever raised. -/
theorem review_ignores_terminal_status (st : ModState)
    (adminId postId : Nat) (decision : String) (notes : Option String)
    (payout : Option Rat) (now : Nat) (post : VloggerPost)
    (hdec : decision = "approved" ∨ decision = "rejected")
    (hpost : st.posts.filter (fun p => p.id == postId) = [post]) :
    review st "admin" adminId postId decision notes payout now false =
      ({ posts := st.posts.map (fun p =>
          if p.id == postId then
            applyPatch p (mkUpdateData decision notes payout now adminId)
          else p) },
       .ok (applyPatch post
         (mkUpdateData decision notes payout now adminId))) := by
  rcases hdec with h | h <;> subst h <;> simp [review, hpost, singleRow]

/-- Witness for C7 amended: re-approving the already-approved `c7Post`. -/
theorem review_ignores_terminal_status_witness :
    review ⟨[c7Post]⟩ "admin" 3 1 "approved" none (some 750) 30 false =
      ({ posts := [c7Post].map (fun p =>
          if p.id == 1 then
            applyPatch p (mkUpdateData "approved" none (some 750) 30 3)
          else p) },
       .ok (applyPatch c7Post
         (mkUpdateData "approved" none (some 750) 30 3))) :=
  review_ignores_terminal_status ⟨[c7Post]⟩ 3 1 "approved" none (some 750)
    30 c7Post (Or.inl rfl) (by decide)

/-! ## C2: lazy expiry at the read boundary -/

/-- A stored promotion whose persisted status is still `active` although
its end date (2022-02-01) is long past. -/
def c2Promo : Promotion :=
  { id := 1, vendor_id := 1, package_id := some "basic",
    package_name := some "Basic Boost", package_price := 2999,
    package_duration := some "1 Month", start_date := ⟨2022, 0, 1⟩,
    end_date := ⟨2022, 1, 1⟩, status := "active", payment_id := "pay_c",
    payment_method := "test", payment_status := "completed",
    cancelled_at := none, created_at := ⟨2022, 0, 1⟩ }

/-- The ledger state holding only `c2Promo`. -/
def c2State : LedgerState := ⟨[c2Promo], [], 2⟩

/-- C2 counterexample: the claim says the read operations present a
stored-active record whose end_time has passed as logically expired.
The GET handler applies no such correction: at a read instant
(2024-06-01) well past the record's end date, the returned row is
`c2Promo` itself, its status field still reading `active`. -/
theorem read_shows_expired_promotion_as_active :
    getPromotions c2State 1 = [c2Promo] ∧
    c2Promo.status = "active" ∧
    dateLE c2Promo.end_date ⟨2024, 5, 1⟩ = true := by
  refine ⟨?_, rfl, by decide⟩
  have h : c2State.promos.filter (fun p => p.vendor_id == 1) = [c2Promo] := by
    decide
  rw [getPromotions, h, List.mergeSort_singleton]

/-- C2 amended: the read path returns the stored rows of the vendor
verbatim — a row is in the reply exactly when it is the vendor's stored
row, with every field (in particular the status) exactly as persisted;
no effective-status / lazy-expiry correction is applied at the read
boundary. -/
theorem read_returns_rows_verbatim (st : LedgerState) (v : Nat)
    (p : Promotion) :
    p ∈ getPromotions st v ↔ p ∈ st.promos ∧ p.vendor_id = v := by
  simp [getPromotions, List.mem_mergeSort, List.mem_filter]

/-! ## C6: cancel on a cancelled / missing promotion -/

/-- An already-cancelled promotion of vendor 1. -/
def c6Promo : Promotion :=
  { id := 1, vendor_id := 1, package_id := some "basic",
    package_name := some "Basic Boost", package_price := 2999,
    package_duration := some "1 Month", start_date := ⟨2023, 0, 1⟩,
    end_date := ⟨2023, 1, 1⟩, status := "cancelled",
    payment_id := "pay_d", payment_method := "test",
    payment_status := "completed", cancelled_at := some ⟨2023, 0, 10⟩,
    created_at := ⟨2023, 0, 1⟩ }

/-- The ledger state holding only `c6Promo`. -/
def c6State : LedgerState := ⟨[c6Promo], [⟨1, false, none, none⟩], 2⟩

/-- C6 counterexample: the claim says cancelling an already-cancelled
promotion fails with Conflict and cancelling a missing promotion fails
with NotFound, modifying nothing.  The handler checks neither: (a)
re-cancelling the cancelled `c6Promo` succeeds (HTTP 200), re-writing
status and refreshing cancelled_at; (b) cancelling a nonexistent
promotion id yields the generic gateway-error reply (HTTP 400 built from
the `.single()` error), not a distinct NotFound. -/
theorem cancel_on_cancelled_succeeds_and_missing_is_400 :
    (cancel c6State 1 1 ⟨2023, 5, 5⟩ false false).2 =
      .cancelledOk (cancelRow ⟨2023, 5, 5⟩ c6Promo) ∧
    c6Promo.status = "cancelled" ∧
    cancel ⟨[], [], 0⟩ 5 1 ⟨2023, 5, 5⟩ false false =
      (⟨[], [], 0⟩, .gatewayError) := by
  exact ⟨rfl, rfl, rfl⟩

/-- C6 amended: the cancel handler patches every promotion matching both
the id and the calling vendor, with no check of its current status: when
exactly one row matches, cancellation succeeds and returns the row
re-written to status `cancelled` with a fresh cancelled_at — also when
that row was already cancelled; when no row matches (nonexistent id or
not-owned promotion), the reply is the generic gateway error (HTTP 400
from the `.single()` error), not a distinct NotFound, and no record is
modified. -/
theorem cancel_is_status_blind (st : LedgerState) (promoId vendorId : Nat)
    (now : CalDate) (uf : Bool) :
    (∀ p : Promotion,
      st.promos.filter
          (fun q => q.id == promoId && q.vendor_id == vendorId) = [p] →
      (cancel st promoId vendorId now false uf).2 =
        .cancelledOk (cancelRow now p)) ∧
    (st.promos.filter
        (fun q => q.id == promoId && q.vendor_id == vendorId) = [] →
      (cancel st promoId vendorId now false uf).2 = .gatewayError ∧
      (cancel st promoId vendorId now false uf).1 = st) := by
  constructor
  · intro p hp
    simp [cancel, hp, singleRow]
  · intro hnone
    have h' := List.filter_eq_nil_iff.mp hnone
    have hmap : st.promos.map (fun p =>
        if p.id = promoId ∧ p.vendor_id = vendorId then cancelRow now p
        else p) = st.promos := by
      calc st.promos.map (fun p =>
              if p.id = promoId ∧ p.vendor_id = vendorId then
                cancelRow now p
              else p)
          = st.promos.map id := by
            apply List.map_congr_left
            intro a ha
            simp only [id]
            rw [if_neg]
            intro hcond
            exact h' a ha (by simp [hcond.1, hcond.2])
        _ = st.promos := List.map_id _
    constructor
    · simp [cancel, hnone, singleRow]
    · simp [cancel, hnone, singleRow, hmap]

/-- Witness for C6 amended: both conjuncts at concrete states. -/
theorem cancel_is_status_blind_witness :
    (cancel c6State 1 1 ⟨2024, 0, 2⟩ false false).2 =
      .cancelledOk (cancelRow ⟨2024, 0, 2⟩ c6Promo) ∧
    ((cancel ⟨[], [], 0⟩ 9 9 ⟨2024, 0, 2⟩ false false).2 = .gatewayError ∧
      (cancel ⟨[], [], 0⟩ 9 9 ⟨2024, 0, 2⟩ false false).1 = ⟨[], [], 0⟩) :=
  ⟨(cancel_is_status_blind c6State 1 1 ⟨2024, 0, 2⟩ false).1 c6Promo
      (by decide),
   (cancel_is_status_blind ⟨[], [], 0⟩ 9 9 ⟨2024, 0, 2⟩ false).2 (by decide)⟩

/-! ## C4: purchase validation -/

/-- A purchase body with a negative price and a duration outside the
three enumerated values — both JavaScript-truthy, so both pass the
handler's falsiness check. -/
def c4Body : PurchaseBody :=
  ⟨some "basic", some "Basic Boost", some (-5), some "2 Months", none⟩

/-- The promotion record the handler inserts for `c4Body`: price -5 is
stored and the unrecognized duration leaves end_date = start_date. -/
def c4Promo : Promotion :=
  { id := 0, vendor_id := 7, package_id := some "basic",
    package_name := some "Basic Boost", package_price := -5,
    package_duration := some "2 Months", start_date := ⟨2023, 0, 15⟩,
    end_date := ⟨2023, 0, 15⟩, status := "active", payment_id := "pay_x",
    payment_method := "test", payment_status := "completed",
    cancelled_at := none, created_at := ⟨2023, 0, 15⟩ }

/-- C4 counterexample: the claim says a purchase whose price is not a
positive number or whose duration is not one of the three enumerated
values fails with InvalidArgument and writes nothing.  A price of -5 and
a duration "2 Months" are both truthy, so validation passes: the
purchase succeeds and inserts `c4Promo` (with the negative price stored
and end_date = start_date). -/
theorem negative_price_unknown_duration_accepted :
    purchase ⟨[], [], 0⟩ 7 c4Body ⟨2023, 0, 15⟩ "pay_x" false false =
      (⟨[c4Promo], [], 1⟩, .created c4Promo) ∧
    c4Promo.package_price = -5 ∧
    c4Promo.end_date = c4Promo.start_date := by
  exact ⟨rfl, rfl, rfl⟩

/-- C4 amended: purchase fails with InvalidArgument exactly when one of
package_id, package_name, package_price, package_duration is missing or
JavaScript-falsy (absent field, empty string, price 0), and in that case
nothing is written (the state of the reply pair is the input state).  A
negative price or a duration outside the three enumerated values passes
validation; an unrecognized duration makes end_date equal start_date. -/
theorem purchase_validation_is_falsiness_only (st : LedgerState) (v : Nat)
    (body : PurchaseBody) (now : CalDate) (pid : String) (f1 f2 : Bool) :
    (purchase st v body now pid f1 f2 = (st, .invalidArgument) ↔
      purchaseFieldsOk body = false) ∧
    (durationMonths body.package_duration = none →
      calcEndDate now body.package_duration = now) := by
  constructor
  · constructor
    · intro h
      by_contra hok
      have hok' : purchaseFieldsOk body = true := by
        revert hok
        cases purchaseFieldsOk body <;> simp
      rw [purchase] at h
      rw [hok'] at h
      cases hs : singleRow (st.promos.filter
          (fun p => p.vendor_id == v && p.status == "active")) with
      | some p => rw [hs] at h; simp at h
      | none =>
        rw [hs] at h
        cases f1 with
        | true => simp at h
        | false => simp at h
    · intro h
      simp [purchase, h]
  · intro h
    by_cases h1 : body.package_duration = some "1 Month"
    · simp [durationMonths, h1] at h
    · by_cases h3 : body.package_duration = some "3 Months"
      · simp [durationMonths, h1, h3] at h
      · by_cases h6 : body.package_duration = some "6 Months"
        · simp [durationMonths, h1, h3, h6] at h
        · simp [calcEndDate, h1, h3, h6]

/-- Witness for C4 amended: an empty body is rejected with nothing
written, and the unknown duration of `c4Body` yields end = start. -/
theorem purchase_validation_is_falsiness_only_witness :
    (purchase ⟨[], [], 0⟩ 1 ⟨none, none, none, none, none⟩ ⟨2023, 0, 15⟩
        "pay_y" false false = (⟨[], [], 0⟩, .invalidArgument)) ∧
    calcEndDate ⟨2023, 0, 15⟩ c4Body.package_duration = ⟨2023, 0, 15⟩ :=
  ⟨(purchase_validation_is_falsiness_only ⟨[], [], 0⟩ 1
      ⟨none, none, none, none, none⟩ ⟨2023, 0, 15⟩ "pay_y" false
      false).1.mpr (by decide),
   (purchase_validation_is_falsiness_only ⟨[], [], 0⟩ 1 c4Body
      ⟨2023, 0, 15⟩ "pay_y" false false).2 (by decide)⟩

/-! ## C8: secondary featured-state write failures are swallowed -/

/-- A well-formed purchase body used to witness C8. -/
def c8Body : PurchaseBody :=
  ⟨some "premium", some "Premium Push", some 7999, some "3 Months",
    some "card"⟩

/-- The promotion committed by the C8 witness purchase. -/
def c8Promo : Promotion :=
  { id := 0, vendor_id := 1, package_id := some "premium",
    package_name := some "Premium Push", package_price := 7999,
    package_duration := some "3 Months", start_date := ⟨2023, 3, 1⟩,
    end_date := ⟨2023, 6, 1⟩, status := "active", payment_id := "pay_w",
    payment_method := "card", payment_status := "completed",
    cancelled_at := none, created_at := ⟨2023, 3, 1⟩ }

/-- C8: when the primary promotion-ledger write succeeds, a failure of
the subsequent vendor featured-state write changes neither the reported
outcome nor the promotions table — purchase and cancel reply exactly as
in the no-failure run (the secondary error is only logged) — and a
purchase reported as created has really committed its promotion row even
when the featured-state write failed. -/
theorem secondary_write_failure_swallowed :
    (∀ (st : LedgerState) (v : Nat) (body : PurchaseBody) (now : CalDate)
        (pid : String) (sf : Bool),
      (purchase st v body now pid false sf).2 =
        (purchase st v body now pid false false).2 ∧
      (purchase st v body now pid false sf).1.promos =
        (purchase st v body now pid false false).1.promos) ∧
    (∀ (st : LedgerState) (promoId v : Nat) (now : CalDate) (sf : Bool),
      (cancel st promoId v now false sf).2 =
        (cancel st promoId v now false false).2 ∧
      (cancel st promoId v now false sf).1.promos =
        (cancel st promoId v now false false).1.promos) ∧
    (∀ (st : LedgerState) (v : Nat) (body : PurchaseBody) (now : CalDate)
        (pid : String) (sf : Bool) (p : Promotion),
      (purchase st v body now pid false sf).2 = .created p →
      p ∈ (purchase st v body now pid false sf).1.promos) := by
  refine ⟨?_, ?_, ?_⟩
  · intro st v body now pid sf
    by_cases hv : purchaseFieldsOk body
    · cases hs : singleRow (st.promos.filter
          (fun p => p.vendor_id == v && p.status == "active")) with
      | some p => simp [purchase, hv, hs]
      | none => simp [purchase, hv, hs, setFeatured_promos]
    · simp [purchase, hv]
  · intro st promoId v now sf
    cases hs : singleRow ((st.promos.filter
        (fun p => p.id == promoId && p.vendor_id == v)).map
          (cancelRow now)) with
    | some p => simp [cancel, hs, clearFeatured_promos]
    | none => simp [cancel, hs]
  · intro st v body now pid sf p hp
    by_cases hv : purchaseFieldsOk body
    · cases hs : singleRow (st.promos.filter
          (fun q => q.vendor_id == v && q.status == "active")) with
      | some q => simp [purchase, hv, hs] at hp
      | none =>
        simp only [purchase, hv, Bool.not_true, Bool.false_eq_true,
          if_false, hs] at hp ⊢
        rw [setFeatured_promos]
        simp only [LedgerResult.created.injEq] at hp
        subst hp
        simp
    · simp [purchase, hv] at hp

/-- Witness for C8: a purchase whose featured-state write fails replies
exactly like the successful run and has committed `c8Promo`. -/
theorem secondary_write_failure_swallowed_witness :
    ((purchase ⟨[], [], 0⟩ 1 c8Body ⟨2023, 3, 1⟩ "pay_w" false true).2 =
      (purchase ⟨[], [], 0⟩ 1 c8Body ⟨2023, 3, 1⟩ "pay_w" false false).2) ∧
    c8Promo ∈
      (purchase ⟨[], [], 0⟩ 1 c8Body ⟨2023, 3, 1⟩ "pay_w" false
        true).1.promos :=
  ⟨(secondary_write_failure_swallowed.1 ⟨[], [], 0⟩ 1 c8Body ⟨2023, 3, 1⟩
      "pay_w" true).1,
   secondary_write_failure_swallowed.2.2 ⟨[], [], 0⟩ 1 c8Body ⟨2023, 3, 1⟩
      "pay_w" true c8Promo (by decide)⟩

/-! ## C1: at most one active promotion per vendor (sequential runs) -/

/-- Cancelling rows can only shrink the set of status-active rows of any
vendor: every row either keeps its fields or gets status `cancelled`. -/
theorem length_filter_cancel_map_le (l : List Promotion)
    (promoId vendorId : Nat) (now : CalDate) (v : Nat) :
    ((l.map (fun p =>
        if p.id == promoId && p.vendor_id == vendorId then cancelRow now p
        else p)).filter
      (fun p => p.vendor_id == v && p.status == "active")).length ≤
    (l.filter (fun p => p.vendor_id == v && p.status == "active")).length := by
  induction l with
  | nil => simp
  | cons a l ih =>
    simp only [List.map_cons, List.filter_cons]
    by_cases hm : (a.id == promoId && a.vendor_id == vendorId) = true
    · rw [if_pos hm]
      have hpred : ((cancelRow now a).vendor_id == v &&
          (cancelRow now a).status == "active") = false := by
        simp [cancelRow]
      rw [hpred]
      simp only [Bool.false_eq_true, if_false]
      by_cases ha : (a.vendor_id == v && a.status == "active") = true
      · rw [if_pos ha]
        simp only [List.length_cons]
        exact le_trans ih (Nat.le_succ _)
      · rw [if_neg ha]
        exact ih
    · rw [if_neg hm]
      by_cases ha : (a.vendor_id == v && a.status == "active") = true
      · rw [if_pos ha, if_pos ha]
        simpa using ih
      · rw [if_neg ha, if_neg ha]
        exact ih

/-- Appending one promotion to a state with no status-active row for
that promotion's vendor preserves the invariant. -/
theorem OneActiveInv_append (st : LedgerState) (p : Promotion) (nid : Nat)
    (h : OneActiveInv st)
    (hempty : (activePromos st p.vendor_id).length = 0) :
    OneActiveInv { st with promos := st.promos ++ [p], nextId := nid } := by
  intro v
  unfold activePromos at *
  simp only [List.filter_append, List.length_append]
  by_cases hv : p.vendor_id = v
  · subst hv
    have h2 : (([p]).filter
        (fun q => q.vendor_id == p.vendor_id && q.status == "active")).length
        ≤ 1 := le_trans (List.length_filter_le _ _) (by simp)
    omega
  · have h2 : (([p]).filter
        (fun q => q.vendor_id == v && q.status == "active")).length = 0 := by
      simp only [List.filter, List.length_nil]
      have : (p.vendor_id == v && p.status == "active") = false := by
        simp only [Bool.and_eq_false_iff, beq_eq_false_iff_ne, ne_eq]
        exact Or.inl hv
      rw [this]
      rfl
    have h1 : (st.promos.filter
        (fun q => q.vendor_id == v && q.status == "active")).length ≤ 1 :=
      h v
    omega

/-- Each serialized ledger operation preserves the one-active-per-vendor
invariant. -/
theorem stepLedger_preserves (st : LedgerState) (op : LedgerOp)
    (h : OneActiveInv st) : OneActiveInv (stepLedger st op).1 := by
  cases op with
  | purchaseOp v b now pid f1 f2 =>
    show OneActiveInv (purchase st v b now pid f1 f2).1
    by_cases hv : purchaseFieldsOk b
    · cases hs : singleRow (st.promos.filter
          (fun p => p.vendor_id == v && p.status == "active")) with
      | some p =>
        have : (purchase st v b now pid f1 f2).1 = st := by
          simp [purchase, hv, hs]
        rw [this]; exact h
      | none =>
        cases f1 with
        | true =>
          have : (purchase st v b now pid true f2).1 = st := by
            simp [purchase, hv, hs]
          rw [this]; exact h
        | false =>
          have hlen : (activePromos st v).length = 0 := by
            have h1 := h v
            have h2 : (activePromos st v).length ≠ 1 := by
              intro hone
              obtain ⟨a, ha, hsingle⟩ :=
                singleRow_of_length_one (activePromos st v) hone
              rw [show activePromos st v = st.promos.filter
                  (fun p => p.vendor_id == v && p.status == "active")
                from rfl] at hsingle
              exact absurd (hs ▸ hsingle) (by simp)
            omega
          have hform : (purchase st v b now pid false f2).1 =
              setFeatured
                { st with
                  promos := st.promos ++
                    [{ id := st.nextId, vendor_id := v,
                       package_id := b.package_id,
                       package_name := b.package_name,
                       package_price := b.package_price.getD 0,
                       package_duration := b.package_duration,
                       start_date := now,
                       end_date := calcEndDate now b.package_duration,
                       status := "active", payment_id := pid,
                       payment_method := b.payment_method.getD "test",
                       payment_status := "completed", cancelled_at := none,
                       created_at := now }],
                  nextId := st.nextId + 1 }
                v b.package_id (calcEndDate now b.package_duration) f2 := by
            simp [purchase, hv, hs]
          rw [hform]
          intro v'
          unfold activePromos
          rw [setFeatured_promos]
          exact OneActiveInv_append st _ (st.nextId + 1) h hlen v'
    · have : (purchase st v b now pid f1 f2).1 = st := by
        simp [purchase, hv]
      rw [this]; exact h
  | cancelOp promoId v now f1 f2 =>
    show OneActiveInv (cancel st promoId v now f1 f2).1
    cases f1 with
    | true => exact h
    | false =>
      have hpromos : (cancel st promoId v now false f2).1.promos =
          st.promos.map (fun p =>
            if p.id == promoId && p.vendor_id == v then cancelRow now p
            else p) := by
        cases hs : singleRow ((st.promos.filter
            (fun p => p.id == promoId && p.vendor_id == v)).map
              (cancelRow now)) with
        | some p => simp [cancel, hs, clearFeatured_promos]
        | none => simp [cancel, hs]
      intro v'
      unfold activePromos
      rw [hpromos]
      exact le_trans (length_filter_cancel_map_le st.promos promoId v now v')
        (h v')

/-- A serialized run of ledger operations preserves the invariant. -/
theorem runLedger_preserves (ops : List LedgerOp) (st : LedgerState)
    (h : OneActiveInv st) : OneActiveInv (runLedger st ops) := by
  induction ops generalizing st with
  | nil => exact h
  | cons op ops ih => exact ih _ (stepLedger_preserves st op h)

/-- C1: under any serialized sequence of purchase and cancel operations
from a state satisfying the invariant, every vendor has at most one
promotion row with status `active` at every instant; and whenever the
query run immediately before the insert finds an existing status-active
promotion of the vendor (the body fields having passed validation), the
purchase fails with the Conflict reply and inserts nothing. -/
theorem one_active_promotion_per_vendor :
    (∀ (st : LedgerState) (ops : List LedgerOp),
      OneActiveInv st → OneActiveInv (runLedger st ops)) ∧
    (∀ (st : LedgerState) (v : Nat) (body : PurchaseBody) (now : CalDate)
        (pid : String) (f1 f2 : Bool),
      OneActiveInv st → purchaseFieldsOk body = true →
      (∃ p ∈ st.promos, p.vendor_id = v ∧ p.status = "active") →
      purchase st v body now pid f1 f2 = (st, .conflict)) := by
  constructor
  · intro st ops h
    exact runLedger_preserves ops st h
  · intro st v body now pid f1 f2 hinv hok hex
    obtain ⟨p, hmem, hvid, hstatus⟩ := hex
    have hpmem : p ∈ activePromos st v := by
      unfold activePromos
      rw [List.mem_filter]
      exact ⟨hmem, by simp [hvid, hstatus]⟩
    have hpos : 0 < (activePromos st v).length :=
      List.length_pos.mpr (List.ne_nil_of_mem hpmem)
    have hone : (activePromos st v).length = 1 := by
      have := hinv v
      omega
    obtain ⟨a, ha, hsingle⟩ := singleRow_of_length_one _ hone
    have hs : singleRow (st.promos.filter
        (fun q => q.vendor_id == v && q.status == "active")) = some a :=
      hsingle
    simp [purchase, hok, hs]

/-- A well-formed purchase body used to witness C1. -/
def c1Body : PurchaseBody :=
  ⟨some "basic", some "Basic Boost", some 2999, some "1 Month", none⟩

/-- A promotion of vendor 1 with status active. -/
def c1Promo : Promotion :=
  { id := 1, vendor_id := 1, package_id := some "basic",
    package_name := some "Basic Boost", package_price := 2999,
    package_duration := some "1 Month", start_date := ⟨2023, 0, 15⟩,
    end_date := ⟨2023, 1, 15⟩, status := "active", payment_id := "pay_1",
    payment_method := "test", payment_status := "completed",
    cancelled_at := none, created_at := ⟨2023, 0, 15⟩ }

/-- The ledger state holding only the active `c1Promo`. -/
def c1State : LedgerState := ⟨[c1Promo], [], 2⟩

/-- Witness for C1: the invariant holds after a concrete serialized
purchase-then-cancel run from the empty store, and a purchase for a
vendor that already holds the active `c1Promo` replies Conflict and
changes nothing. -/
theorem one_active_promotion_per_vendor_witness :
    OneActiveInv (runLedger ⟨[], [], 0⟩
      [.purchaseOp 1 c1Body ⟨2023, 0, 15⟩ "pay_1" false false,
       .cancelOp 0 1 ⟨2023, 1, 1⟩ false false]) ∧
    purchase c1State 1 c1Body ⟨2023, 2, 1⟩ "pay_2" false false =
      (c1State, .conflict) :=
  ⟨one_active_promotion_per_vendor.1 ⟨[], [], 0⟩ _
      (OneActiveInv_of_short _ (by decide)),
   one_active_promotion_per_vendor.2 c1State 1 c1Body ⟨2023, 2, 1⟩ "pay_2"
      false false (OneActiveInv_of_short _ (by decide)) (by decide)
      ⟨c1Promo, by decide, by decide, by decide⟩⟩
